import Mathlib

/-
Shallow embedding of the badelappen/tradingbot core.

Sources embedded:
  - src/bot/strategies/simple_sma.py : SimpleSMAStrategy (constructor check,
    _moving_average, generate_signal with its _last_cross_state).
  - src/bot/bot.py : the per-tick order execution shared by _run_loop
    (lines 103-125) and backtest (lines 138-159), the backtest loop itself,
    start/stop lifecycle state, and the TradingBot construction dispatch.

Modelling choices: Python floats are modelled as rationals, Python
exceptions (ZeroDivisionError in _moving_average for window = 0, and their
propagation) as Option/Except, Python lists as Lean lists.  Stateful
methods become explicit state-passing functions.
-/

namespace Tbot

/- Trade.action is the Python string field restricted to its two values. -/
inductive Action where
  | BUY
  | SELL
deriving DecidableEq, Repr

/- Signals returned by Strategy.generate_signal: the strings BUY/SELL/HOLD. -/
inductive Signal where
  | BUY
  | SELL
  | HOLD
deriving DecidableEq, Repr

/- The Trade dataclass of src/bot/bot.py. -/
structure Trade where
  timestamp : ℚ
  action : Action
  price : ℚ
  quantity : ℚ
deriving DecidableEq, Repr

/- The configuration a SimpleSMAStrategy instance carries after __init__. -/
structure SMAConfig where
  short_window : ℕ
  long_window : ℕ
deriving DecidableEq, Repr

/- SimpleSMAStrategy.__init__: raises ValueError iff long_window <= short_window. -/
def mkSimpleSMAStrategy (short_window long_window : ℕ) : Except String SMAConfig :=
  if long_window ≤ short_window then
    Except.error "long_window muss groesser sein als short_window"
  else
    Except.ok ⟨short_window, long_window⟩

/- TradingBot.__init__ strategy dispatch (src/bot/bot.py lines 48-57):
only the type "sma" is known, anything else raises ValueError. -/
def mkStrategy (strategyType : String) (short_window long_window : ℕ) :
    Except String SMAConfig :=
  if strategyType = "sma" then mkSimpleSMAStrategy short_window long_window
  else Except.error ("Unbekannter Strategie-Typ: " ++ strategyType)

/- Python slice data[-window:]: for window = 0 this is the whole list
(data[0:]), for window > 0 the last min(window, len) elements. -/
def lastWindow (data : List ℚ) (window : ℕ) : List ℚ :=
  if window = 0 then data else data.drop (data.length - window)

/- SimpleSMAStrategy._moving_average: sum(data[-window:]) / window.
Division by zero (window = 0) raises ZeroDivisionError, modelled as none. -/
def movingAverage (data : List ℚ) (window : ℕ) : Option ℚ :=
  if window = 0 then none else some ((lastWindow data window).sum / (window : ℚ))

/- The value _moving_average computes when window > 0. -/
def sma (data : List ℚ) (window : ℕ) : ℚ :=
  (lastWindow data window).sum / (window : ℚ)

/- SimpleSMAStrategy._last_cross_state : int | None. -/
abbrev SMAState := Option Int

/- current_state = 1 if short_ma > long_ma else -1. -/
def crossState (short_ma long_ma : ℚ) : Int :=
  if long_ma < short_ma then 1 else -1

/- SimpleSMAStrategy.generate_signal (src/bot/strategies/simple_sma.py
lines 30-50), as a state-passing function.  Returns none when the Python
code would raise (division by zero inside _moving_average). -/
def generate_signal (cfg : SMAConfig) (prices : List ℚ) (st : SMAState) :
    Option (Signal × SMAState) :=
  if prices.length < cfg.long_window then some (Signal.HOLD, st)
  else
    match movingAverage prices cfg.short_window, movingAverage prices cfg.long_window with
    | some short_ma, some long_ma =>
      let current_state : Int := crossState short_ma long_ma
      let signal : Signal :=
        match st with
        | none => Signal.HOLD
        | some lastState =>
          if lastState < current_state then Signal.BUY
          else if current_state < lastState then Signal.SELL
          else Signal.HOLD
      some (signal, some current_state)
    | _, _ => none

/- The risk/execution configuration fields of TradingBot used per tick. -/
structure BotConfig where
  base_asset_amount : ℚ
  stop_loss_pct : ℚ
  take_profit_pct : ℚ
deriving DecidableEq, Repr

/- Result of one tick of order execution: the updated position, the trades
appended to the ledger this tick (in order), and the realized P&L delta
that backtest adds to its profit accumulator. -/
structure TickResult where
  position : Option Trade
  emitted : List Trade
  profitDelta : ℚ
deriving DecidableEq, Repr

/- The signal-driven branch of the per-tick logic: BUY opens a position
when none is open, SELL closes an open position, everything else is a
no-op (bot.py lines 104-112 and 140-148). -/
def signalStep (cfg : BotConfig) (ts price : ℚ) (signal : Signal)
    (position : Option Trade) : TickResult :=
  match signal, position with
  | Signal.BUY, none =>
    ⟨some ⟨ts, Action.BUY, price, cfg.base_asset_amount⟩,
     [⟨ts, Action.BUY, price, cfg.base_asset_amount⟩], 0⟩
  | Signal.SELL, some p =>
    ⟨none, [⟨ts, Action.SELL, price, p.quantity⟩], (price - p.price) * p.quantity⟩
  | _, pos => ⟨pos, [], 0⟩

/- The stop-loss / take-profit branch, run after the signal branch on
whatever position is then open (bot.py lines 113-124 and 149-159). -/
def thresholdStep (cfg : BotConfig) (ts price : ℚ) (position : Option Trade) :
    TickResult :=
  match position with
  | none => ⟨none, [], 0⟩
  | some p =>
    if price ≤ p.price * (1 - cfg.stop_loss_pct) then
      ⟨none, [⟨ts, Action.SELL, price, p.quantity⟩], (price - p.price) * p.quantity⟩
    else if p.price * (1 + cfg.take_profit_pct) ≤ price then
      ⟨none, [⟨ts, Action.SELL, price, p.quantity⟩], (price - p.price) * p.quantity⟩
    else ⟨some p, [], 0⟩

/- One tick of the order execution shared by _run_loop and backtest:
signal branch first, then the threshold branch on the resulting position.
In _run_loop ts is the wall clock and profitDelta is unused; in backtest
ts is the candle index. -/
def tick (cfg : BotConfig) (ts price : ℚ) (signal : Signal)
    (position : Option Trade) : TickResult :=
  ⟨(thresholdStep cfg ts price (signalStep cfg ts price signal position).position).position,
   (signalStep cfg ts price signal position).emitted ++
     (thresholdStep cfg ts price (signalStep cfg ts price signal position).position).emitted,
   (signalStep cfg ts price signal position).profitDelta +
     (thresholdStep cfg ts price (signalStep cfg ts price signal position).position).profitDelta⟩

/- The local state of TradingBot.backtest: position, profit and trades are
the locally-scoped variables; stratState is self.strategy._last_cross_state,
which generate_signal mutates across the loop. -/
structure BacktestAcc where
  position : Option Trade
  profit : ℚ
  trades : List Trade
  stratState : SMAState
deriving DecidableEq, Repr

/- The loop of TradingBot.backtest (bot.py lines 135-159): for each index
idx, feed the prefix prices[:idx+1] to the strategy, then run one tick at
the current price, timestamping trades with idx. -/
def backtestLoop (scfg : SMAConfig) (cfg : BotConfig) (prices : List ℚ) :
    ℕ → List ℚ → BacktestAcc → Option BacktestAcc
  | _, [], acc => some acc
  | idx, price :: rest, acc =>
    match generate_signal scfg (prices.take (idx + 1)) acc.stratState with
    | none => none
    | some (sig, st) =>
      backtestLoop scfg cfg prices (idx + 1) rest
        ⟨(tick cfg (idx : ℚ) price sig acc.position).position,
         acc.profit + (tick cfg (idx : ℚ) price sig acc.position).profitDelta,
         acc.trades ++ (tick cfg (idx : ℚ) price sig acc.position).emitted, st⟩

/- The dictionary TradingBot.backtest returns (bot.py lines 160-164). -/
structure BacktestResult where
  profit : ℚ
  trade_count : ℕ
  trades : List Trade
deriving DecidableEq, Repr

/- TradingBot.backtest over a given price series, also returning the
strategy state it leaves behind in self.strategy. -/
def backtest (scfg : SMAConfig) (cfg : BotConfig) (prices : List ℚ)
    (st0 : SMAState) : Option (BacktestResult × SMAState) :=
  match backtestLoop scfg cfg prices 0 prices ⟨none, 0, [], st0⟩ with
  | none => none
  | some acc => some (⟨acc.profit, acc.trades.length, acc.trades⟩, acc.stratState)

/- The fields of a TradingBot instance that backtest can possibly read or
write: its configuration, the shared live-loop position and ledger, and
the strategy state. -/
structure TradingBot where
  scfg : SMAConfig
  cfg : BotConfig
  position : Option Trade
  trade_history : List Trade
  stratState : SMAState
deriving DecidableEq, Repr

/- TradingBot.backtest as a method: it reads the configuration and the
strategy object; the only instance field it mutates is the strategy state
(through generate_signal). -/
def backtestBot (bot : TradingBot) (prices : List ℚ) :
    Option (BacktestResult × TradingBot) :=
  match backtest bot.scfg bot.cfg prices bot.stratState with
  | none => none
  | some (res, st) => some (res, { bot with stratState := st })

/- The lifecycle state of TradingBot: self._running and self._thread.
spawned counts the worker threads ever created, so that "does not spawn a
second worker" is expressible. -/
structure BotCtl where
  running : Bool
  thread : Option ℕ
  spawned : ℕ
deriving DecidableEq, Repr

/- TradingBot.start (bot.py lines 67-73): early return when already
running, otherwise set the flag and spawn a fresh worker thread. -/
def startBot (b : BotCtl) : BotCtl :=
  if b.running then b
  else { running := true, thread := some b.spawned, spawned := b.spawned + 1 }

/- TradingBot.stop (bot.py lines 75-80): clear the flag, join the thread
if alive (a pure wait, no state effect modelled), clear the handle. -/
def stopBot (b : BotCtl) : BotCtl :=
  { running := false, thread := none, spawned := b.spawned }

/- Realized P&L of a ledger, scanning left to right with the currently
open entry: each SELL closes the pending BUY and contributes
(exit_price - entry_price) * quantity; a trailing unmatched BUY
contributes nothing. -/
def realizedProfit : List Trade → Option Trade → ℚ
  | [], _ => 0
  | t :: rest, op =>
    match t.action, op with
    | Action.BUY, none => realizedProfit rest (some t)
    | Action.SELL, some p => (t.price - p.price) * p.quantity + realizedProfit rest none
    | _, _ => realizedProfit rest op

/- The entry left open after scanning a ledger: the most recent BUY
without a matching SELL, if any. -/
def scanOpen : List Trade → Option Trade → Option Trade
  | [], op => op
  | t :: rest, op =>
    match t.action, op with
    | Action.BUY, none => scanOpen rest (some t)
    | Action.SELL, some _ => scanOpen rest none
    | _, _ => scanOpen rest op

/- Number of trades with the given action in a ledger. -/
def countAction (a : Action) (trades : List Trade) : ℕ :=
  trades.countP (fun t => t.action == a)

/- The position/ledger/profit coupling maintained by the per-tick logic:
profit is the realized P&L of the ledger, the position is exactly the
unmatched BUY of the ledger (so the ledger holds one more BUY than SELL
exactly when a position is open), and an open position is the most recent
ledger entry and is a BUY. -/
def ledgerInv (pos : Option Trade) (trades : List Trade) (profit : ℚ) : Prop :=
  profit = realizedProfit trades none ∧
  scanOpen trades none = pos ∧
  countAction Action.BUY trades =
    countAction Action.SELL trades + (if pos.isSome then 1 else 0) ∧
  (pos.isSome = true →
    trades.getLast? = pos ∧ Option.map Trade.action pos = some Action.BUY)

lemma movingAverage_of_pos (data : List ℚ) (w : ℕ) (hw : 0 < w) :
    movingAverage data w = some (sma data w) := by
  unfold movingAverage sma
  rw [if_neg (Nat.pos_iff_ne_zero.mp hw)]

lemma generate_signal_of_le (cfg : SMAConfig) (prices : List ℚ) (st : SMAState)
    (hs : 0 < cfg.short_window) (hl : 0 < cfg.long_window)
    (hlen : cfg.long_window ≤ prices.length) :
    generate_signal cfg prices st =
      some
        (match st with
         | none => Signal.HOLD
         | some lastState =>
           if lastState <
               crossState (sma prices cfg.short_window) (sma prices cfg.long_window) then
             Signal.BUY
           else if crossState (sma prices cfg.short_window) (sma prices cfg.long_window) <
               lastState then
             Signal.SELL
           else Signal.HOLD,
         some (crossState (sma prices cfg.short_window) (sma prices cfg.long_window))) := by
  unfold generate_signal
  rw [if_neg (not_lt.mpr hlen), movingAverage_of_pos _ _ hs, movingAverage_of_pos _ _ hl]

lemma scanOpen_append (xs ys : List Trade) (op : Option Trade) :
    scanOpen (xs ++ ys) op = scanOpen ys (scanOpen xs op) := by
  induction xs generalizing op with
  | nil => rfl
  | cons t rest ih =>
    cases ht : t.action <;> cases op <;> simp [scanOpen, ht, ih]

lemma realizedProfit_append (xs ys : List Trade) (op : Option Trade) :
    realizedProfit (xs ++ ys) op =
      realizedProfit xs op + realizedProfit ys (scanOpen xs op) := by
  induction xs generalizing op with
  | nil => simp [realizedProfit, scanOpen]
  | cons t rest ih =>
    cases ht : t.action <;> cases op <;>
      (simp [realizedProfit, scanOpen, ht, ih]; try ring)

lemma countAction_append (a : Action) (xs ys : List Trade) :
    countAction a (xs ++ ys) = countAction a xs + countAction a ys := by
  simp [countAction, List.countP_append]

lemma countAction_singleton (a : Action) (t : Trade) :
    countAction a [t] = if t.action = a then 1 else 0 := by
  simp [countAction, List.countP_cons, List.countP_nil]

lemma ledgerInv_open (pos : Option Trade) (trades : List Trade) (profit : ℚ)
    (t : Trade) (ht : t.action = Action.BUY) (hpos : pos = none)
    (h : ledgerInv pos trades profit) :
    ledgerInv (some t) (trades ++ [t]) (profit + 0) := by
  obtain ⟨hpr, hso, hct, _⟩ := h
  subst hpos
  refine ⟨?_, ?_, ?_, ?_⟩
  · rw [realizedProfit_append, hso]
    simp [realizedProfit, ht, hpr]
  · rw [scanOpen_append, hso]
    simp [scanOpen, ht]
  · rw [countAction_append, countAction_append, countAction_singleton,
      countAction_singleton, ht]
    simp at hct
    simp [hct]
  · intro _
    refine ⟨?_, ?_⟩
    · rw [List.getLast?_concat]
    · simp [ht]

lemma ledgerInv_close (p : Trade) (trades : List Trade) (profit : ℚ)
    (t : Trade) (ht : t.action = Action.SELL)
    (h : ledgerInv (some p) trades profit) :
    ledgerInv none (trades ++ [t]) (profit + (t.price - p.price) * p.quantity) := by
  obtain ⟨hpr, hso, hct, _⟩ := h
  refine ⟨?_, ?_, ?_, ?_⟩
  · rw [realizedProfit_append, hso]
    simp [realizedProfit, ht, hpr]
  · rw [scanOpen_append, hso]
    simp [scanOpen, ht]
  · rw [countAction_append, countAction_append, countAction_singleton,
      countAction_singleton, ht]
    simp at hct
    simp [hct]
  · simp

lemma ledgerInv_nop (pos : Option Trade) (trades : List Trade) (profit : ℚ)
    (h : ledgerInv pos trades profit) :
    ledgerInv pos (trades ++ []) (profit + 0) := by
  simpa using h

lemma signalStep_preserves (cfg : BotConfig) (ts price : ℚ) (sig : Signal)
    (pos : Option Trade) (trades : List Trade) (profit : ℚ)
    (h : ledgerInv pos trades profit) :
    ledgerInv (signalStep cfg ts price sig pos).position
      (trades ++ (signalStep cfg ts price sig pos).emitted)
      (profit + (signalStep cfg ts price sig pos).profitDelta) := by
  cases sig <;> rcases pos with _ | p
  · exact ledgerInv_open none trades profit _ rfl rfl h
  · exact ledgerInv_nop _ trades profit h
  · exact ledgerInv_nop _ trades profit h
  · exact ledgerInv_close p trades profit _ rfl h
  · exact ledgerInv_nop _ trades profit h
  · exact ledgerInv_nop _ trades profit h

lemma thresholdStep_preserves (cfg : BotConfig) (ts price : ℚ)
    (pos : Option Trade) (trades : List Trade) (profit : ℚ)
    (h : ledgerInv pos trades profit) :
    ledgerInv (thresholdStep cfg ts price pos).position
      (trades ++ (thresholdStep cfg ts price pos).emitted)
      (profit + (thresholdStep cfg ts price pos).profitDelta) := by
  rcases pos with _ | p
  · exact ledgerInv_nop _ trades profit h
  · show ledgerInv
      (if price ≤ p.price * (1 - cfg.stop_loss_pct) then
        (⟨none, [⟨ts, Action.SELL, price, p.quantity⟩],
          (price - p.price) * p.quantity⟩ : TickResult)
      else if p.price * (1 + cfg.take_profit_pct) ≤ price then
        ⟨none, [⟨ts, Action.SELL, price, p.quantity⟩], (price - p.price) * p.quantity⟩
      else ⟨some p, [], 0⟩).position
      (trades ++
        (if price ≤ p.price * (1 - cfg.stop_loss_pct) then
          (⟨none, [⟨ts, Action.SELL, price, p.quantity⟩],
            (price - p.price) * p.quantity⟩ : TickResult)
        else if p.price * (1 + cfg.take_profit_pct) ≤ price then
          ⟨none, [⟨ts, Action.SELL, price, p.quantity⟩], (price - p.price) * p.quantity⟩
        else ⟨some p, [], 0⟩).emitted)
      (profit +
        (if price ≤ p.price * (1 - cfg.stop_loss_pct) then
          (⟨none, [⟨ts, Action.SELL, price, p.quantity⟩],
            (price - p.price) * p.quantity⟩ : TickResult)
        else if p.price * (1 + cfg.take_profit_pct) ≤ price then
          ⟨none, [⟨ts, Action.SELL, price, p.quantity⟩], (price - p.price) * p.quantity⟩
        else ⟨some p, [], 0⟩).profitDelta)
    split_ifs
    · exact ledgerInv_close p trades profit _ rfl h
    · exact ledgerInv_close p trades profit _ rfl h
    · exact ledgerInv_nop _ trades profit h

lemma tick_preserves (cfg : BotConfig) (ts price : ℚ) (sig : Signal)
    (pos : Option Trade) (trades : List Trade) (profit : ℚ)
    (h : ledgerInv pos trades profit) :
    ledgerInv (tick cfg ts price sig pos).position
      (trades ++ (tick cfg ts price sig pos).emitted)
      (profit + (tick cfg ts price sig pos).profitDelta) := by
  have h1 := signalStep_preserves cfg ts price sig pos trades profit h
  have h2 := thresholdStep_preserves cfg ts price
    (signalStep cfg ts price sig pos).position
    (trades ++ (signalStep cfg ts price sig pos).emitted)
    (profit + (signalStep cfg ts price sig pos).profitDelta) h1
  rw [List.append_assoc, add_assoc] at h2
  exact h2

lemma backtestLoop_preserves (scfg : SMAConfig) (cfg : BotConfig) (prices : List ℚ)
    (rest : List ℚ) :
    ∀ (idx : ℕ) (acc acc2 : BacktestAcc),
      backtestLoop scfg cfg prices idx rest acc = some acc2 →
      ledgerInv acc.position acc.trades acc.profit →
      ledgerInv acc2.position acc2.trades acc2.profit := by
  induction rest with
  | nil =>
    intro idx acc acc2 h hinv
    unfold backtestLoop at h
    cases h
    exact hinv
  | cons price rest ih =>
    intro idx acc acc2 h hinv
    unfold backtestLoop at h
    rcases hg : generate_signal scfg (prices.take (idx + 1)) acc.stratState
      with _ | ⟨sig, st⟩ <;> rw [hg] at h
    · cases h
    · exact ih (idx + 1) _ acc2 h
        (tick_preserves cfg (idx : ℚ) price sig acc.position acc.trades acc.profit hinv)

/-- Claim C2: for every price list shorter than long_window, generate_signal
returns HOLD and leaves the cross state unchanged, on every such call. -/
theorem insufficient_history_hold (scfg : SMAConfig) (prices : List ℚ)
    (st : SMAState) (h : prices.length < scfg.long_window) :
    generate_signal scfg prices st = some (Signal.HOLD, st) := by
  unfold generate_signal
  rw [if_pos h]

theorem insufficient_history_hold_witness :
    generate_signal ⟨7, 25⟩ [1, 2, 3] (some 1) = some (Signal.HOLD, some 1) :=
  insufficient_history_hold ⟨7, 25⟩ [1, 2, 3] (some 1) (by decide)

/-- Claim C4 (code behavior at the failing input): backtest does not reset the
strategy state, so two consecutive backtest calls on the same bot instance over
the same series [1, 10, 1] differ: the first run (fresh state) produces no
trades and profit 0 but leaves the cross state at -1; the second run, seeded
with that stale state, produces a BUY and a SELL and profit -9. -/
theorem backtest_state_reuse_divergence :
    backtest ⟨1, 2⟩ ⟨1, 2/100, 3/100⟩ [1, 10, 1] none =
      some (⟨0, 0, []⟩, some (-1)) ∧
    backtest ⟨1, 2⟩ ⟨1, 2/100, 3/100⟩ [1, 10, 1] (some (-1)) =
      some (⟨-9, 2, [⟨1, Action.BUY, 10, 1⟩, ⟨2, Action.SELL, 1, 1⟩]⟩, some (-1)) ∧
    ((⟨0, 0, []⟩ : BacktestResult) ≠
      ⟨-9, 2, [⟨1, Action.BUY, 10, 1⟩, ⟨2, Action.SELL, 1, 1⟩]⟩) :=
  ⟨by with_unfolding_all rfl, by with_unfolding_all rfl, by with_unfolding_all decide⟩

/-- Claim C5, counterexample: with take_profit_pct = 0 (an accepted
configuration, since risk parameters are not validated), a BUY signal with no
open position at price 100 opens the position and the take-profit check then
closes it in the same tick, emitting two trades in one tick. -/
theorem tick_two_trades_one_tick :
    (tick ⟨1, 2/100, 0⟩ 0 100 Signal.BUY none).emitted.length = 2 := by
  with_unfolding_all rfl

/-- Claim C5 (amended): when the price and both risk thresholds are positive,
every tick emits at most one trade; and for every configuration whatsoever, a
SELL signal with an open position emits exactly the one signal-driven SELL —
the threshold checks are skipped because the position is already closed, so a
SELL signal and a stop-loss never both fire on the same tick. -/
theorem tick_at_most_one_trade :
    (∀ (cfg : BotConfig) (ts price : ℚ) (sig : Signal) (pos : Option Trade),
      0 < price → 0 < cfg.stop_loss_pct → 0 < cfg.take_profit_pct →
      (tick cfg ts price sig pos).emitted.length ≤ 1) ∧
    (∀ (cfg : BotConfig) (ts price : ℚ) (p : Trade),
      (tick cfg ts price Signal.SELL (some p)).emitted.length = 1) := by
  constructor
  · intro cfg ts price sig pos hp hsl htp
    have h1 : ¬ price ≤ price * (1 - cfg.stop_loss_pct) := by
      nlinarith [mul_pos hp hsl]
    have h2 : ¬ price * (1 + cfg.take_profit_pct) ≤ price := by
      nlinarith [mul_pos hp htp]
    rcases pos with _ | p <;> cases sig
    · simp [tick, signalStep, thresholdStep, h1, h2]
    · simp [tick, signalStep, thresholdStep]
    · simp [tick, signalStep, thresholdStep]
    · simp only [tick, signalStep, thresholdStep]
      split_ifs <;> simp
    · simp [tick, signalStep, thresholdStep]
    · simp only [tick, signalStep, thresholdStep]
      split_ifs <;> simp
  · intro cfg ts price p
    rfl

theorem tick_at_most_one_trade_witness :
    (tick ⟨1, 2/100, 3/100⟩ 0 100 Signal.HOLD
      (some ⟨0, Action.BUY, 90, 1⟩)).emitted.length ≤ 1 ∧
    (tick ⟨1, 2/100, 0⟩ 0 100 Signal.SELL
      (some ⟨0, Action.BUY, 90, 1⟩)).emitted.length = 1 :=
  ⟨tick_at_most_one_trade.1 ⟨1, 2/100, 3/100⟩ 0 100 Signal.HOLD
    (some ⟨0, Action.BUY, 90, 1⟩) (by norm_num) (by norm_num) (by norm_num),
   tick_at_most_one_trade.2 ⟨1, 2/100, 0⟩ 0 100 ⟨0, Action.BUY, 90, 1⟩⟩

/-- Claim C7: SMA construction fails for long_window <= short_window, bot
construction fails for an unknown strategy type, and for positive windows with
long_window > short_window construction succeeds. -/
theorem construction_validation :
    (∀ s l : ℕ, l ≤ s → mkSimpleSMAStrategy s l =
      Except.error "long_window muss groesser sein als short_window") ∧
    (∀ (ty : String) (s l : ℕ), ty ≠ "sma" →
      mkStrategy ty s l = Except.error ("Unbekannter Strategie-Typ: " ++ ty)) ∧
    (∀ s l : ℕ, 0 < s → s < l → mkStrategy "sma" s l = Except.ok ⟨s, l⟩) := by
  refine ⟨?_, ?_, ?_⟩
  · intro s l h
    unfold mkSimpleSMAStrategy
    rw [if_pos h]
  · intro ty s l h
    unfold mkStrategy
    rw [if_neg h]
  · intro s l _ hl
    unfold mkStrategy mkSimpleSMAStrategy
    rw [if_pos rfl, if_neg (not_le.mpr hl)]

theorem construction_validation_witness :
    mkSimpleSMAStrategy 7 7 =
      Except.error "long_window muss groesser sein als short_window" ∧
    mkStrategy "momentum" 7 25 =
      Except.error ("Unbekannter Strategie-Typ: " ++ "momentum") ∧
    mkStrategy "sma" 7 25 = Except.ok ⟨7, 25⟩ :=
  ⟨construction_validation.1 7 7 (by decide),
   construction_validation.2.1 "momentum" 7 25 (by decide),
   construction_validation.2.2 7 25 (by decide) (by decide)⟩

/-- Claim C8: start while running is a no-op that spawns no second worker
thread, stop while idle is a no-op, and after stop the running flag is false
and the thread handle is cleared. -/
theorem start_stop_idempotent :
    (∀ b : BotCtl, b.running = true → startBot b = b) ∧
    (∀ b : BotCtl, b.running = false → b.thread = none → stopBot b = b) ∧
    (∀ b : BotCtl, (stopBot b).running = false ∧ (stopBot b).thread = none) := by
  refine ⟨?_, ?_, ?_⟩
  · intro b h
    unfold startBot
    rw [if_pos h]
  · intro b h1 h2
    cases b
    simp_all [stopBot]
  · intro b
    exact ⟨rfl, rfl⟩

theorem start_stop_idempotent_witness :
    startBot ⟨true, some 0, 1⟩ = ⟨true, some 0, 1⟩ ∧
    stopBot ⟨false, none, 0⟩ = ⟨false, none, 0⟩ ∧
    ((stopBot ⟨true, some 0, 1⟩).running = false ∧
      (stopBot ⟨true, some 0, 1⟩).thread = none) :=
  ⟨start_stop_idempotent.1 ⟨true, some 0, 1⟩ rfl,
   start_stop_idempotent.2.1 ⟨false, none, 0⟩ rfl rfl,
   start_stop_idempotent.2.2 ⟨true, some 0, 1⟩⟩

/-- Claim C10: the SMA constructor does not check positivity, so
short_window = 0 with any positive long_window is accepted, and for every such
accepted configuration generate_signal fails (the moving-average division by
zero) on every price list of length at least long_window. -/
theorem zero_short_window_unchecked :
    (∀ lw : ℕ, mkSimpleSMAStrategy 0 lw = Except.ok ⟨0, lw⟩ ↔ 0 < lw) ∧
    (∀ (lw : ℕ) (prices : List ℚ) (st : SMAState), 0 < lw →
      lw ≤ prices.length → generate_signal ⟨0, lw⟩ prices st = none) := by
  constructor
  · intro lw
    unfold mkSimpleSMAStrategy
    rcases Nat.eq_zero_or_pos lw with rfl | h
    · simp
    · rw [if_neg (by omega)]
      simp [h]
  · intro lw prices st _ hlen
    unfold generate_signal
    rw [if_neg (not_lt.mpr hlen)]
    have h0 : movingAverage prices 0 = none := by
      unfold movingAverage
      simp
    rw [h0]

theorem zero_short_window_unchecked_witness :
    (mkSimpleSMAStrategy 0 1 = Except.ok ⟨0, 1⟩ ↔ 0 < 1) ∧
    generate_signal ⟨0, 1⟩ [5] none = none :=
  ⟨zero_short_window_unchecked.1 1,
   zero_short_window_unchecked.2 1 [5] none (by decide) (by decide)⟩

/-- Claim C1: for every engine instance (valid windows, reachable cross state)
and every price list of length at least long_window, generate_signal succeeds,
always stores the current cross state (encoded 1 for ABOVE, -1 for BELOW,
where ABOVE holds iff short_ma > long_ma strictly, equality counting as
BELOW), returns HOLD on the first call where the state becomes determinable,
and afterwards returns BUY on a BELOW-to-ABOVE transition, SELL on
ABOVE-to-BELOW, and HOLD when the state is unchanged. -/
theorem sma_crossover_behavior (scfg : SMAConfig) (prices : List ℚ)
    (st : SMAState) (hs : 0 < scfg.short_window)
    (hl : scfg.short_window < scfg.long_window)
    (hlen : scfg.long_window ≤ prices.length)
    (hst : st = none ∨ st = some 1 ∨ st = some (-1)) :
    ∃ (sig : Signal) (c : Int),
      generate_signal scfg prices st = some (sig, some c) ∧
      (c = 1 ↔ sma prices scfg.long_window < sma prices scfg.short_window) ∧
      (c = 1 ∨ c = -1) ∧
      (st = none → sig = Signal.HOLD) ∧
      (st = some c → sig = Signal.HOLD) ∧
      (st = some (-1) → c = 1 → sig = Signal.BUY) ∧
      (st = some 1 → c = -1 → sig = Signal.SELL) := by
  have hlong : 0 < scfg.long_window := Nat.lt_of_le_of_lt (Nat.zero_le _) hl
  rw [generate_signal_of_le scfg prices st hs hlong hlen]
  by_cases hq : sma prices scfg.long_window < sma prices scfg.short_window
  · have hc : crossState (sma prices scfg.short_window)
        (sma prices scfg.long_window) = 1 := by
      unfold crossState
      rw [if_pos hq]
    rw [hc]
    rcases hst with rfl | rfl | rfl
    · exact ⟨Signal.HOLD, 1, by decide, by simp [hq], Or.inl rfl,
        by decide, by decide, by decide, by decide⟩
    · exact ⟨Signal.HOLD, 1, by decide, by simp [hq], Or.inl rfl,
        by decide, by decide, by decide, by decide⟩
    · exact ⟨Signal.BUY, 1, by decide, by simp [hq], Or.inl rfl,
        by decide, by decide, by decide, by decide⟩
  · have hc : crossState (sma prices scfg.short_window)
        (sma prices scfg.long_window) = -1 := by
      unfold crossState
      rw [if_neg hq]
    rw [hc]
    rcases hst with rfl | rfl | rfl
    · exact ⟨Signal.HOLD, -1, by decide, by simp [hq], Or.inr rfl,
        by decide, by decide, by decide, by decide⟩
    · exact ⟨Signal.SELL, -1, by decide, by simp [hq], Or.inr rfl,
        by decide, by decide, by decide, by decide⟩
    · exact ⟨Signal.HOLD, -1, by decide, by simp [hq], Or.inr rfl,
        by decide, by decide, by decide, by decide⟩

theorem sma_crossover_behavior_witness :
    ∃ (sig : Signal) (c : Int),
      generate_signal ⟨1, 2⟩ [1, 2] none = some (sig, some c) ∧
      (c = 1 ↔ sma [1, 2] (⟨1, 2⟩ : SMAConfig).long_window <
        sma [1, 2] (⟨1, 2⟩ : SMAConfig).short_window) ∧
      (c = 1 ∨ c = -1) ∧
      ((none : SMAState) = none → sig = Signal.HOLD) ∧
      ((none : SMAState) = some c → sig = Signal.HOLD) ∧
      ((none : SMAState) = some (-1) → c = 1 → sig = Signal.BUY) ∧
      ((none : SMAState) = some 1 → c = -1 → sig = Signal.SELL) :=
  sma_crossover_behavior ⟨1, 2⟩ [1, 2] none (by decide) (by decide) (by decide)
    (Or.inl rfl)

/-- Claim C3: backtest profit equals the realized P&L of its trade ledger (the
sum over closed BUY/SELL pairs of (exit_price - entry_price) * quantity; a
position still open at the end contributes nothing), trade_count is the
length of the returned ledger, and on the series [100, 90, 100, 200, 110]
with unit quantity and wide risk thresholds the run is exactly one BUY at 100
(tick index 2) and one SELL at 110 (tick index 4) with profit exactly 10. -/
theorem backtest_accounting :
    (∀ (scfg : SMAConfig) (cfg : BotConfig) (prices : List ℚ) (st0 : SMAState)
       (res : BacktestResult) (stf : SMAState),
       backtest scfg cfg prices st0 = some (res, stf) →
       res.profit = realizedProfit res.trades none ∧
       res.trade_count = res.trades.length) ∧
    backtest ⟨1, 2⟩ ⟨1, 9/10, 10⟩ [100, 90, 100, 200, 110] none =
      some (⟨10, 2, [⟨2, Action.BUY, 100, 1⟩, ⟨4, Action.SELL, 110, 1⟩]⟩,
        some (-1)) := by
  constructor
  · intro scfg cfg prices st0 res stf h
    unfold backtest at h
    rcases hb : backtestLoop scfg cfg prices 0 prices ⟨none, 0, [], st0⟩
      with _ | acc <;> rw [hb] at h
    · cases h
    · have hinv := backtestLoop_preserves scfg cfg prices prices 0
        ⟨none, 0, [], st0⟩ acc hb ⟨rfl, rfl, rfl, by simp⟩
      simp only [Option.some.injEq, Prod.mk.injEq] at h
      obtain ⟨hres, -⟩ := h
      subst hres
      exact ⟨hinv.1, rfl⟩
  · with_unfolding_all rfl

theorem backtest_accounting_witness :
    (⟨10, 2, [⟨2, Action.BUY, 100, 1⟩, ⟨4, Action.SELL, 110, 1⟩]⟩ :
        BacktestResult).profit =
      realizedProfit (⟨10, 2, [⟨2, Action.BUY, 100, 1⟩,
        ⟨4, Action.SELL, 110, 1⟩]⟩ : BacktestResult).trades none ∧
    (⟨10, 2, [⟨2, Action.BUY, 100, 1⟩, ⟨4, Action.SELL, 110, 1⟩]⟩ :
        BacktestResult).trade_count =
      (⟨10, 2, [⟨2, Action.BUY, 100, 1⟩, ⟨4, Action.SELL, 110, 1⟩]⟩ :
        BacktestResult).trades.length :=
  backtest_accounting.1 ⟨1, 2⟩ ⟨1, 9/10, 10⟩ [100, 90, 100, 200, 110] none
    ⟨10, 2, [⟨2, Action.BUY, 100, 1⟩, ⟨4, Action.SELL, 110, 1⟩]⟩ (some (-1))
    (by with_unfolding_all rfl)

/-- Claim C6, counterexample: with stop_loss_pct = 0.02, a BUY signal arriving
while a position opened at 100 is held and the current price is 50 is not a
"changes nothing" tick: the BUY itself is ignored, but the stop-loss check
still fires, appending a SELL trade and clearing the position. -/
theorem buy_while_open_not_noop :
    (tick ⟨1, 2/100, 3/100⟩ 1 50 Signal.BUY
      (some ⟨0, Action.BUY, 100, 1⟩)).emitted ≠ [] ∧
    (tick ⟨1, 2/100, 3/100⟩ 1 50 Signal.BUY
      (some ⟨0, Action.BUY, 100, 1⟩)).position ≠ some ⟨0, Action.BUY, 100, 1⟩ := by
  constructor
  · with_unfolding_all decide
  · with_unfolding_all decide

/-- Claim C6 (amended): a BUY signal while a position is open is ignored — the
tick behaves exactly as a HOLD tick (no BUY appended, no new position opened;
threshold exits may still close the position); every tick preserves the
position/ledger coupling; and at the end of any backtest run started from
empty state, a position is open iff the ledger holds exactly one more BUY
than SELL, and an open position is the most recent ledger entry and is a
BUY. -/
theorem position_ledger_coupling :
    (∀ (cfg : BotConfig) (ts price : ℚ) (p : Trade),
      tick cfg ts price Signal.BUY (some p) =
        tick cfg ts price Signal.HOLD (some p)) ∧
    (∀ (cfg : BotConfig) (ts price : ℚ) (sig : Signal) (pos : Option Trade)
       (trades : List Trade) (profit : ℚ), ledgerInv pos trades profit →
       ledgerInv (tick cfg ts price sig pos).position
         (trades ++ (tick cfg ts price sig pos).emitted)
         (profit + (tick cfg ts price sig pos).profitDelta)) ∧
    (∀ (scfg : SMAConfig) (cfg : BotConfig) (prices : List ℚ) (st0 : SMAState)
       (acc2 : BacktestAcc),
       backtestLoop scfg cfg prices 0 prices ⟨none, 0, [], st0⟩ = some acc2 →
       (acc2.position.isSome = true ↔
         countAction Action.BUY acc2.trades =
           countAction Action.SELL acc2.trades + 1) ∧
       (acc2.position.isSome = true →
         acc2.trades.getLast? = acc2.position ∧
         Option.map Trade.action acc2.position = some Action.BUY)) := by
  refine ⟨?_, ?_, ?_⟩
  · intro cfg ts price p
    rfl
  · intro cfg ts price sig pos trades profit h
    exact tick_preserves cfg ts price sig pos trades profit h
  · intro scfg cfg prices st0 acc2 h
    have hinv := backtestLoop_preserves scfg cfg prices prices 0
      ⟨none, 0, [], st0⟩ acc2 h ⟨rfl, rfl, rfl, by simp⟩
    obtain ⟨-, -, hct, hlast⟩ := hinv
    refine ⟨⟨?_, ?_⟩, hlast⟩
    · intro hsome
      rw [hct, hsome]
      simp
    · intro hcount
      by_contra hns
      rw [Bool.not_eq_true] at hns
      rw [hns] at hct
      simp at hct
      omega

theorem position_ledger_coupling_witness :
    (tick ⟨1, 2/100, 3/100⟩ 1 50 Signal.BUY (some ⟨0, Action.BUY, 100, 1⟩) =
      tick ⟨1, 2/100, 3/100⟩ 1 50 Signal.HOLD (some ⟨0, Action.BUY, 100, 1⟩)) ∧
    ledgerInv (tick ⟨1, 9/10, 10⟩ 2 100 Signal.BUY none).position
      ([] ++ (tick ⟨1, 9/10, 10⟩ 2 100 Signal.BUY none).emitted)
      (0 + (tick ⟨1, 9/10, 10⟩ 2 100 Signal.BUY none).profitDelta) ∧
    (((⟨none, 10, [⟨2, Action.BUY, 100, 1⟩, ⟨4, Action.SELL, 110, 1⟩],
        some (-1)⟩ : BacktestAcc).position.isSome = true ↔
      countAction Action.BUY (⟨none, 10, [⟨2, Action.BUY, 100, 1⟩,
        ⟨4, Action.SELL, 110, 1⟩], some (-1)⟩ : BacktestAcc).trades =
        countAction Action.SELL (⟨none, 10, [⟨2, Action.BUY, 100, 1⟩,
          ⟨4, Action.SELL, 110, 1⟩], some (-1)⟩ : BacktestAcc).trades + 1) ∧
     ((⟨none, 10, [⟨2, Action.BUY, 100, 1⟩, ⟨4, Action.SELL, 110, 1⟩],
        some (-1)⟩ : BacktestAcc).position.isSome = true →
       (⟨none, 10, [⟨2, Action.BUY, 100, 1⟩, ⟨4, Action.SELL, 110, 1⟩],
          some (-1)⟩ : BacktestAcc).trades.getLast? =
         (⟨none, 10, [⟨2, Action.BUY, 100, 1⟩, ⟨4, Action.SELL, 110, 1⟩],
            some (-1)⟩ : BacktestAcc).position ∧
       Option.map Trade.action (⟨none, 10, [⟨2, Action.BUY, 100, 1⟩,
          ⟨4, Action.SELL, 110, 1⟩], some (-1)⟩ : BacktestAcc).position =
         some Action.BUY)) :=
  ⟨position_ledger_coupling.1 ⟨1, 2/100, 3/100⟩ 1 50 ⟨0, Action.BUY, 100, 1⟩,
   position_ledger_coupling.2.1 ⟨1, 9/10, 10⟩ 2 100 Signal.BUY none [] 0
     ⟨rfl, rfl, rfl, by simp⟩,
   position_ledger_coupling.2.2 ⟨1, 2⟩ ⟨1, 9/10, 10⟩ [100, 90, 100, 200, 110]
     none ⟨none, 10, [⟨2, Action.BUY, 100, 1⟩, ⟨4, Action.SELL, 110, 1⟩],
       some (-1)⟩ (by with_unfolding_all rfl)⟩

/-- Claim C9: backtest never touches the shared live-loop state — the bot's
open position and its trade ledger are unchanged by any backtest call, which
operates only on locally-scoped position/trades state (the only instance
field it mutates is the strategy cross state). -/
theorem backtest_frame (bot : TradingBot) (prices : List ℚ)
    (res : BacktestResult) (bot2 : TradingBot)
    (h : backtestBot bot prices = some (res, bot2)) :
    bot2.position = bot.position ∧ bot2.trade_history = bot.trade_history := by
  unfold backtestBot at h
  rcases hb : backtest bot.scfg bot.cfg prices bot.stratState
    with _ | ⟨r, st⟩ <;> rw [hb] at h
  · cases h
  · simp only [Option.some.injEq, Prod.mk.injEq] at h
    obtain ⟨-, hbot⟩ := h
    subst hbot
    exact ⟨rfl, rfl⟩

theorem backtest_frame_witness :
    (⟨⟨1, 2⟩, ⟨1, 2/100, 3/100⟩, none, [], some 1⟩ : TradingBot).position =
      (⟨⟨1, 2⟩, ⟨1, 2/100, 3/100⟩, none, [], none⟩ : TradingBot).position ∧
    (⟨⟨1, 2⟩, ⟨1, 2/100, 3/100⟩, none, [], some 1⟩ : TradingBot).trade_history =
      (⟨⟨1, 2⟩, ⟨1, 2/100, 3/100⟩, none, [], none⟩ : TradingBot).trade_history :=
  backtest_frame ⟨⟨1, 2⟩, ⟨1, 2/100, 3/100⟩, none, [], none⟩ [1, 2] ⟨0, 0, []⟩
    ⟨⟨1, 2⟩, ⟨1, 2/100, 3/100⟩, none, [], some 1⟩ (by with_unfolding_all rfl)

end Tbot
